import Mathlib

/-!
Verification of the screenshot-capture orchestration engine of `screenshot_mcp`.

The TypeScript sources (`src/winshot.ts`, `src/screenshot.ts`, `src/platform.ts`,
`src/index.ts`) are embedded shallowly: every subprocess invocation is an
explicit `Effect`, the outcome of each external process is an input
(`ProcOutcome`), and strings are modelled as `List Char` so that all
definitions reduce inside the kernel.
-/

/-- Strings of the embedded program, as character lists. -/
abbrev Str := List Char

/-- `s.startsWith(p)` on character lists. -/
def strStartsWith : Str → Str → Bool
  | _, [] => true
  | [], _ :: _ => false
  | c :: s, p :: ps => c = p && strStartsWith s ps

/-- ASCII whitespace recognised by the embedding (space, tab, LF, CR). -/
def isSpaceChar (c : Char) : Bool :=
  c = ' ' || c = '\t' || c = '\n' || c = '\r'

/-- `s.trimStart()`. -/
def strTrimLeft (s : Str) : Str := s.dropWhile isSpaceChar

/-- `s.trim()`: whitespace removed from both ends. -/
def strTrim (s : Str) : Str :=
  ((strTrimLeft s).reverse.dropWhile isSpaceChar).reverse

/-- `s.split(",")`. -/
def splitComma : Str → List Str
  | [] => [[]]
  | c :: rest =>
    match splitComma rest with
    | [] => [[]]
    | g :: gs => if c = ',' then [] :: g :: gs else (c :: g) :: gs

/-- `s.replace(/"/g, '\\"')` — the `esc` helper of `winshot.ts`. -/
def escQuotes (s : Str) : Str :=
  s.flatMap fun c => if c = '"' then ['\\', '"'] else [c]

/-- `input.replace(/\s+/g, "_")`: each maximal whitespace run becomes one `_`.
Used by `buildFilename` in `winshot.ts`. -/
def collapseSpacesAux : Bool → Str → Str
  | _, [] => []
  | prev, c :: rest =>
    if isSpaceChar c then
      (if prev then [] else ['_']) ++ collapseSpacesAux true rest
    else
      c :: collapseSpacesAux false rest

/-- `input.replace(/\s+/g, "_")` starting outside a whitespace run. -/
def collapseSpaces (s : Str) : Str := collapseSpacesAux false s

/-- JavaScript `a || b` for strings: `b` when `a` is empty. -/
def strOr (a b : Str) : Str := if a = [] then b else a

/-- JavaScript `a || b` where `a` may be `undefined`: `b` when `a` is
`undefined` or the empty string. -/
def jsOrStr (a : Option Str) (b : Str) : Str :=
  match a with
  | some s => if s = [] then b else s
  | none => b

/-- Decimal rendering of an integer, as in JS template interpolation. -/
def intStr (n : Int) : Str := (toString n).toList

/-- `Math.round(n / 1024)` for an integer byte count `n` (KB display). -/
def jsRound1024 (n : Int) : Int := (n + 512) / 1024

/-- Result of `run` in `winshot.ts`: collected stdout, stderr and exit code. -/
structure RunResult where
  stdout : Str
  stderr : Str
  code : Int
deriving Repr, DecidableEq

/-- The behaviour of one spawned subprocess, as observed by the runner:
it completes with output and an exit code, exceeds the deadline, or the
spawn/collection itself throws with a message. -/
inductive ProcOutcome where
  | completes (stdout stderr : Str) (code : Int)
  | timesOut
  | fails (msg : Str)
deriving Repr, DecidableEq

/-- `run` of `winshot.ts` (lines 42–66): races the subprocess against a
timer; on timeout the subprocess is killed and the sentinel
`{stdout: "", stderr: "[TIMEOUT]", code: 124}` is returned; any other
thrown error is caught and reported with exit code 1. The function is
total — callers always receive a structured `RunResult`. -/
def run : ProcOutcome → RunResult
  | .completes out err code => ⟨out, err, code⟩
  | .timesOut => ⟨[], "[TIMEOUT]".toList, 124⟩
  | .fails msg => ⟨[], msg, 1⟩

/-- One observable side effect of the embedded program. -/
inductive Effect where
  | spawn (argv : List Str)
  | statFile (path : Str)
  | readFile (path : Str)
  | existsCheck (path : Str)
deriving Repr, DecidableEq

/-- Is this effect a read of a file's bytes? -/
def isReadEffect : Effect → Bool
  | .readFile _ => true
  | _ => false

/-- Is this effect a `statSync` call? -/
def isStatEffect : Effect → Bool
  | .statFile _ => true
  | _ => false

/-- Is this effect a spawn of the program `prog`? -/
def isSpawnOf (prog : Str) : Effect → Bool
  | .spawn argv => argv.head? = some prog
  | _ => false

/-- `DEFAULT_INLINE_MAX` of `screenshot.ts`. -/
def DEFAULT_INLINE_MAX : Int := 1000000

/-- `resolveInlineMaxBytes` of `screenshot.ts` (lines 40–48). `envVal` is
the numeric value that `Number(process.env.MCP_SCREENSHOT_EMBED_MAX_BYTES)`
parses to, `none` when the variable is unset, empty, or non-numeric (all of
which fall through to the default in the source). -/
def resolveInlineMaxBytes (override : Option Int) (envVal : Option Int) : Int :=
  match override with
  | some o => o
  | none =>
    match envVal with
    | some parsed => if parsed > 0 then parsed else DEFAULT_INLINE_MAX
    | none => DEFAULT_INLINE_MAX

/-- `shouldEmbed` of `screenshot.ts` (lines 50–53): both the forced and the
automatic branch compare `size <= threshold`. -/
def shouldEmbed (size threshold : Int) (force : Bool) : Bool :=
  if force then decide (size ≤ threshold) else decide (size ≤ threshold)

/-- The base64 alphabet. -/
def base64Alphabet : Str :=
  "ABCDEFGHIJKLMNOPQRSTUVWXYZabcdefghijklmnopqrstuvwxyz0123456789+/".toList

/-- The base64 digit for a 6-bit value. -/
def b64Digit (n : Nat) : Char := base64Alphabet.getD n '='

/-- `buf.toString("base64")`: standard base64 with `=` padding over the
byte list of the file. -/
def base64Encode : List Nat → Str
  | [] => []
  | [a] => [b64Digit (a / 4), b64Digit (a % 4 * 16), '=', '=']
  | [a, b] => [b64Digit (a / 4), b64Digit (a % 4 * 16 + b / 16), b64Digit (b % 16 * 4), '=']
  | a :: b :: c :: rest =>
    [b64Digit (a / 4), b64Digit (a % 4 * 16 + b / 16),
     b64Digit (b % 16 * 4 + c / 64), b64Digit (c % 64)] ++ base64Encode rest

/-- One MCP content item: a text message or an embedded base64 image. -/
inductive McpContent where
  | text (t : Str)
  | image (mimeType : Str) (data : Str)
deriving Repr, DecidableEq

/-- An MCP tool result: content items plus the error flag (an absent
`isError` field in the source is modelled as `false`). -/
structure McpResult where
  content : List McpContent
  isError : Bool
deriving Repr, DecidableEq

/-- Outcome of one filesystem call: the value, or the thrown message. -/
inductive FsAnswer (α : Type) where
  | ok (val : α)
  | err (msg : Str)
deriving Repr, DecidableEq

/-- Filesystem answers observed by `embedFileContent`: the result of
`statSync` (size, or the thrown message) and of `readFileSync` (bytes, or
the thrown message). -/
structure FileEnv where
  statSize : FsAnswer Int
  readBytes : FsAnswer (List Nat)
deriving Repr, DecidableEq

/-- `embedFileContent` of `screenshot.ts` (lines 57–96): stat the file once;
embed (one read, base64) when `shouldEmbed` allows, else emit the
"not embedded" text; a thrown stat/read error becomes the
"embedding failed" text. Returns the result together with the
filesystem effects performed. -/
def embedFileContent (path label : Str) (inlineMaxBytes : Option Int) (force : Bool)
    (envVal : Option Int) (fs : FileEnv) : McpResult × List Effect :=
  match fs.statSize with
  | .err msg =>
    ({ content := [.text (label ++ path ++ " (embedding failed: ".toList ++ msg ++ ")".toList)],
       isError := false }, [.statFile path])
  | .ok size =>
    let threshold := resolveInlineMaxBytes inlineMaxBytes envVal
    if shouldEmbed size threshold force then
      match fs.readBytes with
      | .err msg =>
        ({ content := [.text (label ++ path ++ " (embedding failed: ".toList ++ msg ++ ")".toList)],
           isError := false }, [.statFile path, .readFile path])
      | .ok bytes =>
        ({ content := [.image "image/png".toList (base64Encode bytes),
                       .text (label ++ path ++ " (embedded inline, ".toList
                              ++ intStr (jsRound1024 size) ++ " KB)".toList)],
           isError := false }, [.statFile path, .readFile path])
    else
      ({ content := [.text (label ++ path ++ " (not embedded; ".toList
                            ++ intStr (jsRound1024 size) ++ " KB exceeds ".toList
                            ++ intStr (jsRound1024 (resolveInlineMaxBytes inlineMaxBytes envVal))
                            ++ " KB limit)".toList)],
         isError := false }, [.statFile path])

/-- The AppleScript used by `listForegroundApps` and `listRunningApps`. -/
def listAppsScript : Str :=
  "tell application \"System Events\" to get name of every process whose background only is false".toList

/-- First resolver pass script (`script1` in `resolveActualAppName`,
`winshot.ts` line 85): case-sensitive bidirectional `contains`, then exact
equality, over the foreground process names; the input is spliced in three
times through `esc`. -/
def resolveScript1 (input : Str) : Str :=
  "try\n  tell application \"System Events\"\n    set allProcesses to name of every process whose background only is false\n    repeat with processName in allProcesses\n      if (processName as string) contains \"".toList
  ++ escQuotes input
  ++ "\" or (\"".toList
  ++ escQuotes input
  ++ "\" as string) contains (processName as string) then\n        return processName as string\n      end if\n    end repeat\n    repeat with processName in allProcesses\n      if (processName as string) is equal to \"".toList
  ++ escQuotes input
  ++ "\" then\n        return processName as string\n      end if\n    end repeat\n    return \"NOT_FOUND\"\n  end tell\nend try".toList

/-- Second resolver pass script (`script2`, `winshot.ts` line 90): the
lowercased bidirectional `contains`; the input is spliced in once
through `esc`. -/
def resolveScript2 (input : Str) : Str :=
  "try\n  tell application \"System Events\"\n    set allProcesses to name of every process whose background only is false\n    repeat with processName in allProcesses\n      set lowerProcessName to do shell script \"echo \" & quoted form of (processName as string) & \" | tr \x27[:upper:]\x27 \x27[:lower:]\x27\"\n      set lowerSearchName to do shell script \"echo \" & quoted form of \"".toList
  ++ escQuotes input
  ++ "\" & \" | tr \x27[:upper:]\x27 \x27[:lower:]\x27\"\n      if lowerProcessName contains lowerSearchName or lowerSearchName contains lowerProcessName then\n        return processName as string\n      end if\n    end repeat\n    return \"NOT_FOUND\"\n  end tell\nend try".toList

/-- The acceptance test applied to each resolver pass
(`res.code === 0 && res.stdout.trim() && res.stdout.trim() !== "NOT_FOUND"`). -/
def passResult (r : RunResult) : Option Str :=
  if r.code = 0 ∧ strTrim r.stdout ≠ [] ∧ strTrim r.stdout ≠ "NOT_FOUND".toList then
    some (strTrim r.stdout)
  else none

/-- `resolveActualAppName` of `winshot.ts` (lines 82–94): run pass 1; if it
yields a name stop there, otherwise run pass 2; both passes go through
`osascript -e <script>` as a direct argument vector. Returns the resolved
name (or `none`) plus the commands spawned. -/
def resolveActualAppName (input : Str) (q1 q2 : ProcOutcome) : Option Str × List Effect :=
  let pass1 : List Effect := [.spawn ["osascript".toList, "-e".toList, resolveScript1 input]]
  match passResult (run q1) with
  | some n => (some n, pass1)
  | none =>
    (passResult (run q2),
     pass1 ++ [.spawn ["osascript".toList, "-e".toList, resolveScript2 input]])

/-- `listForegroundApps` of `winshot.ts` (lines 72–80): one bounded query;
a nonzero exit yields the empty list, otherwise the comma-separated names
are trimmed and the empty entries dropped. -/
def listForegroundApps (q : ProcOutcome) : List Str × List Effect :=
  let res := run q
  ((if res.code ≠ 0 then []
    else ((splitComma res.stdout).map strTrim).filter fun s => !s.isEmpty),
   [.spawn ["osascript".toList, "-e".toList, listAppsScript]])

/-- The `getWindowInfo` AppleScript (`winshot.ts` line 97) with the resolved
app name spliced in once through the quote-escaper. -/
def windowInfoScript (actualAppName : Str) : Str :=
  "try\n  tell application \"System Events\"\n    set appProcess to first process whose name is \"".toList
  ++ escQuotes actualAppName
  ++ "\"\n    set windowCount to count of windows of appProcess\n    if windowCount > 0 then\n      set frontWindow to first window of appProcess\n      try\n        set windowID to id of frontWindow\n        return \"WINDOW_ID:\" & windowID\n      on error\n        set windowBounds to position of frontWindow & size of frontWindow\n        return \"BOUNDS:\" & (item 1 of windowBounds) & \",\" & (item 2 of windowBounds) & \",\" & (item 3 of windowBounds) & \",\" & (item 4 of windowBounds)\n      end try\n    else\n      return \"NO_WINDOWS\"\n    end if\n  end tell\nend try".toList

/-- `getWindowInfo` of `winshot.ts` (lines 96–101): the trimmed stdout on a
zero exit with nonempty output, `"ERROR"` otherwise. -/
def getWindowInfo (actualAppName : Str) (q : ProcOutcome) : Str × List Effect :=
  let res := run q
  ((if res.code = 0 ∧ strTrim res.stdout ≠ [] then strTrim res.stdout else "ERROR".toList),
   [.spawn ["osascript".toList, "-e".toList, windowInfoScript actualAppName]])

/-- The `bringToFront` AppleScript (`winshot.ts` line 104). -/
def bringToFrontScript (actualAppName : Str) : Str :=
  "tell application \"System Events\" to set frontmost of first process whose name is \"".toList
  ++ escQuotes actualAppName
  ++ "\" to true".toList

/-- `bringToFront` of `winshot.ts` (lines 103–108): the call's outcome is
ignored, only the spawn is observable. -/
def bringToFront (actualAppName : Str) : List Effect :=
  [.spawn ["osascript".toList, "-e".toList, bringToFrontScript actualAppName]]

/-- Window classification of the spec's data model, tagged from the
`getWindowInfo` string exactly as `captureWithStrategy` dispatches on it. -/
inductive WClass where
  | stableId (id : Str)
  | boundsOf (b : Str)
  | noWindows
  | queryError
deriving Repr, DecidableEq

/-- Classify a `getWindowInfo` string by the prefix tests of
`captureWithStrategy`. -/
def classify (windowInfo : Str) : WClass :=
  if strStartsWith windowInfo "WINDOW_ID:".toList then
    .stableId (windowInfo.drop "WINDOW_ID:".length)
  else if strStartsWith windowInfo "BOUNDS:".toList then
    .boundsOf (windowInfo.drop "BOUNDS:".length)
  else if windowInfo = "NO_WINDOWS".toList then .noWindows
  else .queryError

/-- What the capture strategy selector chose: the `screencapture` argument
vector, the recorded method, and the diagnostic lines pushed (their emoji
prefixes elided). -/
structure CaptureSelection where
  args : List Str
  method : Str
  lines : List Str
deriving Repr, DecidableEq

/-- `captureWithStrategy` of `winshot.ts` (lines 133–190), up to the spawn:
the argument-vector/method selection for each strategy and window-info
string. -/
def captureWithStrategy (strategy windowInfo filename : Str) : CaptureSelection :=
  if strategy = "id".toList then
    if strStartsWith windowInfo "WINDOW_ID:".toList then
      let id := windowInfo.drop "WINDOW_ID:".length
      { args := ["screencapture".toList, "-l".toList, id, "-o".toList, filename],
        method := "window-id".toList,
        lines := ["Using window ID method (ID: ".toList ++ id ++ ")".toList] }
    else
      { args := ["screencapture".toList, "-w".toList, "-o".toList, filename],
        method := "frontmost".toList,
        lines := ["Window ID not available, falling back to frontmost window".toList] }
  else if strategy = "bounds".toList then
    if strStartsWith windowInfo "BOUNDS:".toList then
      let bounds := windowInfo.drop "BOUNDS:".length
      { args := ["screencapture".toList, "-R".toList, bounds, "-o".toList, filename],
        method := "bounds".toList,
        lines := ["Using bounds method (".toList ++ bounds ++ ")".toList] }
    else
      { args := ["screencapture".toList, "-w".toList, "-o".toList, filename],
        method := "frontmost".toList,
        lines := ["Window bounds not available, falling back to frontmost window".toList] }
  else if strategy = "interactive".toList then
    { args := ["screencapture".toList, "-i".toList, "-o".toList, filename],
      method := "interactive".toList,
      lines := ["Starting interactive selection...".toList,
                "Click on the app window or area you want to capture when the crosshair appears".toList] }
  else
    if strStartsWith windowInfo "WINDOW_ID:".toList then
      let id := windowInfo.drop "WINDOW_ID:".length
      { args := ["screencapture".toList, "-l".toList, id, "-o".toList, filename],
        method := "window-id".toList,
        lines := ["Using window ID method (ID: ".toList ++ id ++ ")".toList] }
    else if strStartsWith windowInfo "BOUNDS:".toList then
      let bounds := windowInfo.drop "BOUNDS:".length
      { args := ["screencapture".toList, "-R".toList, bounds, "-o".toList, filename],
        method := "bounds".toList,
        lines := ["Using bounds method (".toList ++ bounds ++ ")".toList] }
    else if windowInfo = "NO_WINDOWS".toList then
      { args := ["screencapture".toList, "-i".toList, "-o".toList, filename],
        method := "interactive".toList,
        lines := ["App has no windows. Starting interactive selection...".toList,
                  "Click on the app window or area you want to capture when the crosshair appears".toList] }
    else
      { args := ["screencapture".toList, "-w".toList, "-o".toList, filename],
        method := "frontmost".toList,
        lines := ["Falling back to frontmost window capture".toList] }

/-- The concrete capture method that a `screencapture` argument vector
performs, read off its flag: `-l` captures by window id, `-R` by region
bounds, `-i` interactively, `-w` the frontmost window. -/
def methodOfArgs (args : List Str) : Str :=
  match args.get? 1 with
  | some f =>
    if f = "-l".toList then "window-id".toList
    else if f = "-R".toList then "bounds".toList
    else if f = "-i".toList then "interactive".toList
    else if f = "-w".toList then "frontmost".toList
    else []
  | none => []

/-- The spec's §4.5 state-machine table (`by-id`/`by-bounds` in the spec are
the tool's `id`/`bounds` strategy values): the method each
strategy/classification pair must run. -/
def specSelectorTable (strategy : Str) (c : WClass) : Str :=
  if strategy = "id".toList then
    match c with
    | .stableId _ => "window-id".toList
    | _ => "frontmost".toList
  else if strategy = "bounds".toList then
    match c with
    | .boundsOf _ => "bounds".toList
    | _ => "frontmost".toList
  else if strategy = "interactive".toList then "interactive".toList
  else
    match c with
    | .stableId _ => "window-id".toList
    | .boundsOf _ => "bounds".toList
    | .noWindows => "interactive".toList
    | .queryError => "frontmost".toList

/-- `buildFilename` of `winshot.ts` (lines 116–119): whitespace runs of the
app name become `_`, then `dir/screenshot_<name>_<timestamp>.png`. -/
def buildFilename (dir actualAppName ts : Str) : Str :=
  dir ++ "/screenshot_".toList ++ collapseSpaces actualAppName ++ "_".toList ++ ts ++ ".png".toList

/-- `path.slice(0, -4) + "_temp.png"` — the temporary sibling used by
`compressPng`. -/
def tmpCompressPath (path : Str) : Str :=
  path.take (path.length - 4) ++ "_temp.png".toList

/-- The `sips` argument vector spawned by `compressPng`. -/
def sipsCompressArgs (path tmp : Str) : List Str :=
  ["sips".toList, "-s".toList, "format".toList, "png".toList, "--setProperty".toList,
   "formatOptions".toList, "default".toList, path, "--out".toList, tmp]

/-- `compressPng` of `winshot.ts` (lines 121–131): run `sips` into the
temporary sibling; only when it exits 0 and the temporary file exists is it
moved over the original. Takes the file's current bytes and the bytes
`sips` produced; returns the bytes at `path` afterwards, plus effects. -/
def compressPng (path : Str) (orig sipsOut : List Nat) (sipsCode : Int) (tmpExists : Bool) :
    List Nat × List Effect :=
  let tmp := tmpCompressPath path
  if sipsCode = 0 ∧ tmpExists = true then
    (sipsOut, [.spawn (sipsCompressArgs path tmp), .existsCheck tmp, .spawn ["mv".toList, tmp, path]])
  else
    (orig, [.spawn (sipsCompressArgs path tmp), .existsCheck tmp])

/-- `Math.round((savings * 100) / original)` guarded by `original ? _ : 0`. -/
def jsRoundPct (savings original : Int) : Int :=
  if original ≠ 0 then (savings * 100 * 2 + original) / (original * 2) else 0

/-- Options of `screenshotApp` (`AppScreenshotOptions`; `timeoutMs` is
unused by the source and omitted). -/
structure AppOptions where
  compress : Bool
  strategy : Option Str
  returnData : Bool
deriving Repr, DecidableEq

/-- Everything `screenshotApp` observes from outside: environment
variables, the outcome of each subprocess, and filesystem answers. -/
structure AppWorld where
  envStrategy : Option Str
  envCompress : Bool
  resolveQuery1 : ProcOutcome
  resolveQuery2 : ProcOutcome
  listQuery : ProcOutcome
  windowQuery : ProcOutcome
  captureProc : ProcOutcome
  fileExists : Bool
  origBytes : List Nat
  statBefore : FsAnswer Int
  sipsCode : Int
  sipsTmpExists : Bool
  sipsBytes : List Nat
  statAfter : FsAnswer Int
  dataStat : FsAnswer Int
  dataRead : FsAnswer (List Nat)
  home : Str
  timestamp : Str
deriving Repr, DecidableEq

/-- `AppScreenshotResult` of `winshot.ts`: absent optional fields are
`none`/`false`. -/
structure AppShotResult where
  success : Bool
  path : Option Str
  dataUri : Option Str
  method : Option Str
  stdoutLines : List Str
  error : Option Str
  tooLargeForData : Bool
deriving Repr, DecidableEq

/-- `opts.strategy || process.env.WINDOW_STRATEGY || "auto"`. -/
def effectiveStrategy (opts : AppOptions) (w : AppWorld) : Str :=
  jsOrStr opts.strategy (jsOrStr w.envStrategy "auto".toList)

/-- The compression block of `screenshotApp` (`winshot.ts` lines 238–253),
inside its try/catch: stat, `compressPng`, stat again, and the notice line;
a thrown stat is caught with the "Compression failed" notice. Returns the
file bytes afterwards, the notice lines, and the effects. -/
def compressionPhase (filename : Str) (w : AppWorld) : List Nat × List Str × List Effect :=
  match w.statBefore with
  | .err _ =>
    (w.origBytes, ["Compression failed, using original file".toList], [.statFile filename])
  | .ok original =>
    let cp := compressPng filename w.origBytes w.sipsBytes w.sipsCode w.sipsTmpExists
    match w.statAfter with
    | .err _ =>
      (cp.1, ["Compression failed, using original file".toList],
       [.statFile filename] ++ cp.2 ++ [.statFile filename])
    | .ok after =>
      if after ≤ original then
        (cp.1,
         ["Compression complete: ".toList ++ intStr original ++ " bytes → ".toList
          ++ intStr after ++ " bytes (saved ".toList ++ intStr (original - after)
          ++ " bytes, ".toList ++ intStr (jsRoundPct (original - after) original) ++ "%)".toList],
         [.statFile filename] ++ cp.2 ++ [.statFile filename])
      else
        (cp.1, ["Compression did not reduce size".toList],
         [.statFile filename] ++ cp.2 ++ [.statFile filename])

/-- The `returnData` block of `screenshotApp` (`winshot.ts` lines 259–274):
stat; refuse above 1 MiB (`tooLargeForData`); otherwise read once and build
the data URI; thrown stat/read errors are caught with a notice. Returns
(dataUri, extra lines, tooLargeForData, effects). -/
def dataPhase (filename : Str) (w : AppWorld) : Option Str × List Str × Bool × List Effect :=
  match w.dataStat with
  | .err msg => (none, ["Failed to base64 encode: ".toList ++ msg], false, [.statFile filename])
  | .ok size =>
    if size > 1048576 then
      (none,
       ["File too large for base64 encoding (".toList ++ intStr (jsRound1024 size)
        ++ " KB > 1024 KB limit)".toList],
       true, [.statFile filename])
    else
      match w.dataRead with
      | .err msg =>
        (none, ["Failed to base64 encode: ".toList ++ msg], false,
         [.statFile filename, .readFile filename])
      | .ok buf =>
        (some ("data:image/png;base64,".toList ++ base64Encode buf), [], false,
         [.statFile filename, .readFile filename])

/-- `screenshotApp` of `winshot.ts` (lines 192–277): resolve the app,
classify its window, bring it to front, capture with the selected strategy,
optionally recompress, optionally build the base64 data URI. Returns the
result record, the bytes of the output file at return, and all effects. -/
def screenshotApp (appName : Str) (opts : AppOptions) (w : AppWorld) :
    AppShotResult × List Nat × List Effect :=
  let strategy := effectiveStrategy opts w
  if appName = [] then
    ({ success := false, path := none, dataUri := none, method := none,
       stdoutLines := ["Error: No app name provided\nUsage: screenshotApp(\"App Name\")".toList],
       error := some "No app name".toList, tooLargeForData := false }, [], [])
  else
    let lines0 := ["Looking for app: ".toList ++ appName]
    let resolved := resolveActualAppName appName w.resolveQuery1 w.resolveQuery2
    match resolved.1 with
    | none =>
      let running := (listForegroundApps w.listQuery).1
      ({ success := false, path := none, dataUri := none, method := none,
         stdoutLines := lines0
           ++ ["Could not find app \x27".toList ++ appName ++ "\x27".toList,
               "Make sure the app is running and try one of these:".toList, []]
           ++ (if running.length ≠ 0 then
                 "Available running apps:".toList :: running.map (fun n => "• ".toList ++ n)
               else []),
         error := some "App not found".toList, tooLargeForData := false }, [],
       resolved.2 ++ (listForegroundApps w.listQuery).2)
    | some actualApp =>
      let windowInfo := (getWindowInfo actualApp w.windowQuery).1
      let effW := (getWindowInfo actualApp w.windowQuery).2
      let effF := bringToFront actualApp
      let dir := w.home ++ "/Desktop/Screenshots".toList
      let effM : List Effect := [Effect.spawn ["mkdir".toList, "-p".toList, dir]]
      let filename := buildFilename dir actualApp w.timestamp
      let sel := captureWithStrategy strategy windowInfo filename
      let capRes := run w.captureProc
      let lines1 := lines0
        ++ ["Found app: ".toList ++ actualApp,
            "Window info: ".toList ++ windowInfo,
            "Taking screenshot...".toList,
            "Using window strategy: ".toList ++ strategy]
        ++ sel.lines
      let effBase := resolved.2 ++ effW ++ effF ++ effM ++ [Effect.spawn sel.args, Effect.existsCheck filename]
      if capRes.code ≠ 0 ∨ w.fileExists = false then
        ({ success := false, path := none, dataUri := none, method := none,
           stdoutLines := lines1 ++ ["Failed to capture screenshot".toList],
           error := some (strOr capRes.stderr (strOr capRes.stdout "Capture failed".toList)),
           tooLargeForData := false }, [], effBase)
      else
        let phase :=
          if opts.compress || w.envCompress then
            let p := compressionPhase filename w
            (p.1, "Compressing PNG file...".toList :: p.2.1, p.2.2)
          else (w.origBytes, ([] : List Str), ([] : List Effect))
        let lines2 := lines1 ++ ["Screenshot saved: ".toList ++ filename]
          ++ phase.2.1 ++ ["Done!".toList]
        if opts.returnData then
          let dp := dataPhase filename w
          ({ success := true, path := some filename, dataUri := dp.1,
             method := some sel.method, stdoutLines := lines2 ++ dp.2.1,
             error := none, tooLargeForData := dp.2.2.1 },
           phase.1, effBase ++ phase.2.2 ++ dp.2.2.2)
        else
          ({ success := true, path := some filename, dataUri := none,
             method := some sel.method, stdoutLines := lines2,
             error := none, tooLargeForData := false },
           phase.1, effBase ++ phase.2.2)

/-- Options of `runScreenshot` in `screenshot.ts`. -/
structure RSOptions where
  compress : Bool
  windowStrategy : Option Str
  returnData : Bool
  inlineMaxBytes : Option Int
deriving Repr, DecidableEq

/-- What `runScreenshot` observes from outside: the platform gate, the
`screenshotApp` world, the `existsSync` check before embedding, the
embedding filesystem answers, and the embed-threshold environment value. -/
structure RunWorld where
  supported : Bool
  unsupportedMsg : Str
  app : AppWorld
  pathExistsAtEmbed : Bool
  embedFs : FileEnv
  envInlineMax : Option Int
deriving Repr, DecidableEq

/-- `runScreenshot` of `screenshot.ts` (lines 98–168): platform guard, then
`screenshotApp`; a failed capture surfaces as `isError = true`; on success
the saved file is embedded through `embedFileContent` when it still
exists. -/
def runScreenshot (appName : Str) (opts : RSOptions) (w : RunWorld) :
    McpResult × List Effect :=
  if w.supported = false then
    ({ content := [.text ("Screenshot failed: ".toList ++ w.unsupportedMsg)], isError := true }, [])
  else
    let res := screenshotApp appName ⟨opts.compress, opts.windowStrategy, opts.returnData⟩ w.app
    let r := res.1
    let eff := res.2.2
    if r.success = false then
      ({ content := [.text ("Screenshot failed: ".toList ++ jsOrStr r.error "Unknown error".toList)],
         isError := true }, eff)
    else
      match r.path with
      | some p =>
        if w.pathExistsAtEmbed then
          let emb := embedFileContent p "Screenshot successfully taken and saved to: ".toList
            opts.inlineMaxBytes opts.returnData w.envInlineMax w.embedFs
          (emb.1, eff ++ [.existsCheck p] ++ emb.2)
        else
          ({ content := [.text ("Screenshot successfully taken and saved to: ".toList ++ p)],
             isError := false }, eff ++ [.existsCheck p])
      | none =>
        ({ content := [.text "Screenshot successfully taken and saved to: <unknown path>".toList],
           isError := false }, eff)

/-- Options of `captureRegion` in `screenshot.ts`. -/
structure RegionOpts where
  compress : Bool
  returnData : Bool
  inlineMaxBytes : Option Int
deriving Repr, DecidableEq

/-- What `captureRegion` observes from outside. -/
structure RegionWorld where
  supported : Bool
  unsupportedMsg : Str
  captureProc : ProcOutcome
  fileExists : Bool
  embedFs : FileEnv
  envInlineMax : Option Int
  home : Str
  timestamp : Str
deriving Repr, DecidableEq

/-- The invalid-coordinates message of `captureRegion`
(`screenshot.ts` line 308), naming every field with its value. -/
def regionInvalidMsg (x y width height : Int) : Str :=
  "Region capture failed: Invalid coordinates. x and y must be non-negative, width and height must be positive. Got: x=".toList
  ++ intStr x ++ ", y=".toList ++ intStr y ++ ", width=".toList ++ intStr width
  ++ ", height=".toList ++ intStr height

/-- The region output filename (`screenshot.ts` line 325). -/
def regionFilename (x y width height : Int) (home ts : Str) : Str :=
  home ++ "/Desktop/Screenshots/screenshot_region_".toList ++ intStr x ++ "_".toList
  ++ intStr y ++ "_".toList ++ intStr width ++ "x".toList ++ intStr height
  ++ "_".toList ++ ts ++ ".png".toList

/-- The `screencapture -R x,y,w,h -o file` argument vector of
`captureRegion`. -/
def regionCaptureArgs (x y width height : Int) (filename : Str) : List Str :=
  ["screencapture".toList, "-R".toList,
   intStr x ++ ",".toList ++ intStr y ++ ",".toList ++ intStr width ++ ",".toList ++ intStr height,
   "-o".toList, filename]

/-- The in-place `sips` argument vector of `captureRegion`'s compression. -/
def regionSipsArgs (filename : Str) : List Str :=
  ["sips".toList, "-s".toList, "format".toList, "png".toList, "--setProperty".toList,
   "formatOptions".toList, "default".toList, filename]

/-- `captureRegion` of `screenshot.ts` (lines 281–435): platform guard,
coordinate validation before any subprocess, `mkdir`, `screencapture -R`,
the missing-file warning (note: `isError: false` in the source), optional
in-place `sips`, then `embedFileContent`. -/
def captureRegion (x y width height : Int) (opts : RegionOpts) (w : RegionWorld) :
    McpResult × List Effect :=
  if w.supported = false then
    ({ content := [.text ("Region capture failed: ".toList ++ w.unsupportedMsg)],
       isError := true }, [])
  else if x < 0 ∨ y < 0 ∨ width ≤ 0 ∨ height ≤ 0 then
    ({ content := [.text (regionInvalidMsg x y width height)], isError := true }, [])
  else
    let dir := w.home ++ "/Desktop/Screenshots".toList
    let filename := regionFilename x y width height w.home w.timestamp
    let effM : List Effect := [.spawn ["mkdir".toList, "-p".toList, dir]]
    let capEff : List Effect := [Effect.spawn (regionCaptureArgs x y width height filename)]
    match w.captureProc with
    | .timesOut =>
      ({ content := [.text "Region capture failed: [TIMEOUT] Operation exceeded 10 second timeout".toList],
         isError := true }, effM ++ capEff)
    | .fails msg =>
      ({ content := [.text ("Error capturing region: ".toList ++ msg)], isError := true },
       effM ++ capEff)
    | .completes out err code =>
      if code ≠ 0 then
        ({ content := [.text ("Region capture failed: ".toList
                              ++ strOr err (strOr out "Unknown error".toList))],
           isError := true }, effM ++ capEff)
      else if w.fileExists = false then
        ({ content := [.text ("Region capture appears to have been taken but file not found at expected location: ".toList
                              ++ filename ++ ". The capture may have failed silently.".toList)],
           isError := false }, effM ++ capEff ++ [.existsCheck filename])
      else
        let effS : List Effect := if opts.compress then [.spawn (regionSipsArgs filename)] else []
        let emb := embedFileContent filename
          "Region screenshot successfully captured and saved to: ".toList
          opts.inlineMaxBytes opts.returnData w.envInlineMax w.embedFs
        (emb.1, effM ++ capEff ++ [.existsCheck filename] ++ effS ++ emb.2)

/-- A lowercase hex digit. -/
def hexDigitChar (n : Nat) : Char := "0123456789abcdef".toList.getD n '0'

/-- `JSON.stringify` escaping of one character. -/
def jsonEscapeChar (c : Char) : Str :=
  if c = '"' then ['\\', '"']
  else if c = '\\' then ['\\', '\\']
  else if c = '\n' then ['\\', 'n']
  else if c = '\r' then ['\\', 'r']
  else if c = '\t' then ['\\', 't']
  else if c = '\x08' then ['\\', 'b']
  else if c = '\x0c' then ['\\', 'f']
  else if c.toNat < 32 then
    ['\\', 'u', '0', '0', hexDigitChar (c.toNat / 16), hexDigitChar (c.toNat % 16)]
  else [c]

/-- `JSON.stringify` escaping of a string body. -/
def jsonEscape (s : Str) : Str := s.flatMap jsonEscapeChar

/-- Join pretty-printed array entries with `",\n"`. -/
def jsonJoinLines : List Str → Str
  | [] => []
  | [s] => s
  | s :: rest => s ++ ",\n".toList ++ jsonJoinLines rest

/-- `JSON.stringify(names, null, 2)` for an array of strings: `[]` when
empty, otherwise one two-space-indented quoted entry per line. -/
def jsonStringifyArray (names : List Str) : Str :=
  match names with
  | [] => "[]".toList
  | _ =>
    "[\n".toList
    ++ jsonJoinLines (names.map fun n => "  \"".toList ++ jsonEscape n ++ "\"".toList)
    ++ "\n]".toList

/-- `listRunningApps` of `screenshot.ts` (lines 170–279): platform guard,
one `osascript` query with its own timeout race, then the comma-separated
names are trimmed, filtered nonempty, sorted with the comparator
`a.localeCompare(b)` (modelled by the integer comparator `lc`), and
pretty-printed as JSON; empty trimmed output returns the literal `"[]"`. -/
def listRunningApps (supported : Bool) (unsupportedMsg : Str) (q : ProcOutcome)
    (lc : Str → Str → Int) : McpResult × List Effect :=
  if supported = false then
    ({ content := [.text ("App listing failed: ".toList ++ unsupportedMsg)], isError := true }, [])
  else
    let eff : List Effect := [.spawn ["osascript".toList, "-e".toList, listAppsScript]]
    match q with
    | .timesOut =>
      ({ content := [.text "App listing failed: [TIMEOUT] Operation exceeded 10 second timeout".toList],
         isError := true }, eff)
    | .fails msg =>
      ({ content := [.text ("Error listing running apps: ".toList ++ msg)], isError := true }, eff)
    | .completes out err code =>
      if code ≠ 0 then
        ({ content := [.text ("App listing failed: ".toList ++ strOr err out)], isError := true }, eff)
      else
        let appsString := strTrim out
        if appsString = [] then
          ({ content := [.text "[]".toList], isError := false }, eff)
        else
          let parsed := ((splitComma appsString).map strTrim).filter fun n => decide (0 < n.length)
          let appNames := List.insertionSort (fun a b => lc a b ≤ 0) parsed
          ({ content := [.text (jsonStringifyArray appNames)], isError := false }, eff)
/-- **C5.** For every command and timeout the process runner never throws on
timeout: when the subprocess exceeds its deadline it is killed and the
runner returns the structured sentinel result with `exitCode = 124`,
`stderr = "[TIMEOUT]"` and empty stdout; and for every possible subprocess
behaviour the caller receives a normal `{stdout, stderr, exitCode}` value. -/
theorem c5_run_timeout_sentinel :
    run ProcOutcome.timesOut = ⟨[], "[TIMEOUT]".toList, 124⟩
    ∧ ∀ o : ProcOutcome, ∃ s e c, run o = ⟨s, e, c⟩ := by
  refine ⟨rfl, fun o => ?_⟩
  cases o <;> exact ⟨_, _, _, rfl⟩

/-- **C3.** `shouldEmbed` returns `true` iff `size ≤ threshold`; the
explicit-request flag never changes the decision; the decision is
monotone (it flips from `true` to `false` exactly once as size grows past
the threshold, and the boundary `size = threshold` embeds); and the
effective threshold is the per-call override when present, else the
positive environment-level value, else 1,000,000 bytes. -/
theorem c3_shouldEmbed_spec (size threshold : Int) (force : Bool) :
    (shouldEmbed size threshold force = true ↔ size ≤ threshold)
    ∧ (∀ f₁ f₂ : Bool, shouldEmbed size threshold f₁ = shouldEmbed size threshold f₂)
    ∧ (∀ s₁ s₂ : Int, s₁ ≤ s₂ → shouldEmbed s₂ threshold force = true →
        shouldEmbed s₁ threshold force = true)
    ∧ shouldEmbed threshold threshold force = true
    ∧ (∀ o e, resolveInlineMaxBytes (some o) e = o)
    ∧ (∀ p : Int, p > 0 → resolveInlineMaxBytes none (some p) = p)
    ∧ resolveInlineMaxBytes none none = 1000000 := by
  refine ⟨?_, ?_, ?_, ?_, ?_, ?_, ?_⟩
  · simp [shouldEmbed]
  · intro f₁ f₂; cases f₁ <;> cases f₂ <;> simp [shouldEmbed]
  · intro s₁ s₂ h₁₂ h₂
    have h₂' : s₂ ≤ threshold := by
      cases force <;> simpa [shouldEmbed] using h₂
    cases force <;> simp [shouldEmbed] <;> omega
  · cases force <;> simp [shouldEmbed]
  · intro o e; rfl
  · intro p hp; simp [resolveInlineMaxBytes, hp]
  · rfl

/-- Witness for C3 at concrete inputs: size 1,000,000 embeds at the default
threshold, size 1,000,001 does not. -/
theorem c3_shouldEmbed_spec_witness :
    (shouldEmbed 1000000 1000000 false = true ↔ (1000000 : Int) ≤ 1000000)
    ∧ ((5 : Int) > 0 → resolveInlineMaxBytes none (some 5) = 5) := by
  exact ⟨(c3_shouldEmbed_spec 1000000 1000000 false).1,
    fun h => ((c3_shouldEmbed_spec 0 0 false).2.2.2.2.2.1 5 h)⟩


/-- A string starting with `"WINDOW_ID:"` does not start with `"BOUNDS:"`. -/
theorem sw_windowId_not_bounds (wi : Str)
    (h : strStartsWith wi ("WINDOW_ID:".toList) = true) :
    strStartsWith wi ("BOUNDS:".toList) = false := by
  cases wi with
  | nil => exact absurd h (by decide)
  | cons c s =>
    simp [strStartsWith] at h
    obtain ⟨hc, -⟩ := h
    subst hc
    rfl

/-- **C1.** The capture strategy selector implements exactly the spec's
state-machine table: `id` captures by window id on `StableId` and falls
back to frontmost otherwise; `bounds` captures by region bounds on
`Bounds` and falls back to frontmost otherwise; `interactive` always runs
interactive selection; `auto` maps `StableId`/`Bounds`/`NoWindows`/
`QueryError` to window-id/bounds/interactive/frontmost. The method in the
selection names exactly what its argument vector runs, and every
successful `screenshotApp` result records that method. -/
theorem c1_strategy_state_machine (strategy windowInfo filename : Str)
    (hs : strategy = "id".toList ∨ strategy = "bounds".toList ∨
          strategy = "interactive".toList ∨ strategy = "auto".toList) :
    (captureWithStrategy strategy windowInfo filename).method
      = specSelectorTable strategy (classify windowInfo)
    ∧ methodOfArgs (captureWithStrategy strategy windowInfo filename).args
      = (captureWithStrategy strategy windowInfo filename).method
    ∧ ∀ (appName : Str) (opts : AppOptions) (w : AppWorld),
        (screenshotApp appName opts w).1.success = true →
        ∃ actualApp,
          (resolveActualAppName appName w.resolveQuery1 w.resolveQuery2).1 = some actualApp
          ∧ (screenshotApp appName opts w).1.method
            = some ((captureWithStrategy (effectiveStrategy opts w)
                      (getWindowInfo actualApp w.windowQuery).1
                      (buildFilename (w.home ++ "/Desktop/Screenshots".toList)
                        actualApp w.timestamp)).method) := by
  have tbl : (captureWithStrategy strategy windowInfo filename).method
      = specSelectorTable strategy (classify windowInfo)
      ∧ methodOfArgs (captureWithStrategy strategy windowInfo filename).args
      = (captureWithStrategy strategy windowInfo filename).method := by
    constructor
    · simp only [captureWithStrategy, classify, specSelectorTable]
      split_ifs <;>
        first
          | rfl
          | exact absurd ‹strStartsWith windowInfo ("BOUNDS:".toList) = true›
              (ne_true_of_eq_false (sw_windowId_not_bounds _
                ‹strStartsWith windowInfo ("WINDOW_ID:".toList) = true›))
    · simp only [captureWithStrategy]
      split_ifs <;> rfl
  refine ⟨tbl.1, tbl.2, ?_⟩
  intro appName opts w hsucc
  by_cases hname : appName = []
  · simp [screenshotApp, hname] at hsucc
  · rcases hres : (resolveActualAppName appName w.resolveQuery1 w.resolveQuery2).1 with _ | a
    · simp [screenshotApp, hname, hres] at hsucc
    · refine ⟨a, rfl, ?_⟩
      by_cases hcap : (run w.captureProc).code ≠ 0 ∨ w.fileExists = false
      · simp [screenshotApp, hname, hres, hcap] at hsucc
      · by_cases hrd : opts.returnData <;>
          simp [screenshotApp, hname, hres, hcap, hrd]

/-- Witness for C1: the `id` strategy on a `WINDOW_ID:7` classification. -/
theorem c1_strategy_state_machine_witness :
    ("id".toList = "id".toList ∨ "id".toList = "bounds".toList ∨
     "id".toList = "interactive".toList ∨ "id".toList = "auto".toList)
    ∧ ((captureWithStrategy "id".toList "WINDOW_ID:7".toList "f.png".toList).method
        = specSelectorTable "id".toList (classify "WINDOW_ID:7".toList)
      ∧ methodOfArgs (captureWithStrategy "id".toList "WINDOW_ID:7".toList "f.png".toList).args
        = (captureWithStrategy "id".toList "WINDOW_ID:7".toList "f.png".toList).method
      ∧ ∀ (appName : Str) (opts : AppOptions) (w : AppWorld),
          (screenshotApp appName opts w).1.success = true →
          ∃ actualApp,
            (resolveActualAppName appName w.resolveQuery1 w.resolveQuery2).1 = some actualApp
            ∧ (screenshotApp appName opts w).1.method
              = some ((captureWithStrategy (effectiveStrategy opts w)
                        (getWindowInfo actualApp w.windowQuery).1
                        (buildFilename (w.home ++ "/Desktop/Screenshots".toList)
                          actualApp w.timestamp)).method)) :=
  ⟨Or.inl rfl,
   c1_strategy_state_machine "id".toList "WINDOW_ID:7".toList "f.png".toList (Or.inl rfl)⟩

/-- The resolver's effects vanish under any predicate that rejects
`osascript` spawns. -/
theorem resolve_filter_nil (i : Str) (q1 q2 : ProcOutcome) (p : Effect → Bool)
    (hp : ∀ argv : List Str, argv.head? = some ("osascript".toList) → p (.spawn argv) = false) :
    ((resolveActualAppName i q1 q2).2).filter p = [] := by
  unfold resolveActualAppName
  cases hq : passResult (run q1) <;> simp [List.filter, hp]

/-- The compression block's effects vanish under any predicate that rejects
stats, exists-checks, `sips` spawns and `mv` spawns. -/
theorem compressionPhase_filter_nil (filename : Str) (w : AppWorld) (p : Effect → Bool)
    (hstat : ∀ path, p (.statFile path) = false)
    (hex : ∀ path, p (.existsCheck path) = false)
    (hsips : ∀ argv : List Str, argv.head? = some ("sips".toList) → p (.spawn argv) = false)
    (hmv : ∀ argv : List Str, argv.head? = some ("mv".toList) → p (.spawn argv) = false) :
    ((compressionPhase filename w).2.2).filter p = [] := by
  unfold compressionPhase compressPng
  cases w.statBefore <;> cases w.statAfter <;>
    simp [List.filter, sipsCompressArgs, hstat, hex, hsips, hmv] <;>
    split_ifs <;> simp [List.filter, sipsCompressArgs, hstat, hex, hsips, hmv]

/-- The data-URI block's effects vanish under any predicate that rejects
stats and reads. -/
theorem dataPhase_filter_nil (filename : Str) (w : AppWorld) (p : Effect → Bool)
    (hstat : ∀ path, p (.statFile path) = false)
    (hread : ∀ path, p (.readFile path) = false) :
    ((dataPhase filename w).2.2.2).filter p = [] := by
  unfold dataPhase
  cases w.dataStat <;> cases w.dataRead <;>
    simp [List.filter, hstat, hread] <;>
    split_ifs <;> simp [List.filter, hstat, hread]

/-- Every selected capture argument vector invokes `screencapture`. -/
theorem captureWithStrategy_args_head (s wi f : Str) :
    (captureWithStrategy s wi f).args.head? = some ("screencapture".toList) := by
  unfold captureWithStrategy
  split_ifs <;> rfl

/-- **C2 counterexample.** A region capture whose subprocess exits 0 but
whose output file is missing afterwards does NOT surface as
`isError = true`: the source returns the missing-file warning with
`isError: false`, refuting the claim for region capture. -/
theorem c2_counterexample :
    (captureRegion 0 0 50 50 ⟨false, false, none⟩
      { supported := true, unsupportedMsg := [], captureProc := .completes [] [] 0,
        fileExists := false, embedFs := ⟨.ok 0, .ok []⟩, envInlineMax := none,
        home := "/h".toList, timestamp := "T".toList }).1.isError = false := by
  decide

/-- `isSpawnOf` unfolded to its decidable test. -/
theorem isSpawnOf_eq_decide (prog : Str) (argv : List Str) :
    isSpawnOf prog (.spawn argv) = decide (argv.head? = some prog) := rfl

/-- A spawn of a program other than `screencapture` is rejected by the
`screencapture` spawn predicate. -/
theorem screencap_rejects (other : Str)
    (hne : decide (some other = some ("screencapture".toList)) = false) :
    ∀ argv : List Str, argv.head? = some other →
      isSpawnOf ("screencapture".toList) (.spawn argv) = false := by
  intro argv h
  rw [isSpawnOf_eq_decide, h]
  exact hne

/-- Stats are not spawns. -/
theorem isSpawnOf_statFile (prog path : Str) : isSpawnOf prog (.statFile path) = false := rfl

/-- Reads are not spawns. -/
theorem isSpawnOf_readFile (prog path : Str) : isSpawnOf prog (.readFile path) = false := rfl

/-- Exists-checks are not spawns. -/
theorem isSpawnOf_existsCheck (prog path : Str) : isSpawnOf prog (.existsCheck path) = false := rfl

/-- The selected capture vector is accepted by the `screencapture` spawn
predicate. -/
theorem screencap_accepts_capture (s wi f : Str) :
    isSpawnOf ("screencapture".toList) (.spawn ((captureWithStrategy s wi f).args)) = true := by
  rw [isSpawnOf_eq_decide, captureWithStrategy_args_head]
  decide

/-- The embedding helper performs no spawns. -/
theorem embedFileContent_filter_nil (path label : Str) (imb : Option Int) (force : Bool)
    (env : Option Int) (fs : FileEnv) (p : Effect → Bool)
    (hstat : ∀ q, p (.statFile q) = false)
    (hread : ∀ q, p (.readFile q) = false) :
    ((embedFileContent path label imb force env fs).2).filter p = [] := by
  unfold embedFileContent
  cases fs.statSize <;> cases fs.readBytes <;>
    simp [List.filter, hstat, hread] <;>
    split_ifs <;> simp [List.filter, hstat, hread]

/-- `screenshotApp` spawns `screencapture` at most once (no retries). -/
theorem screenshotApp_screencap_le_one (appName : Str) (opts : AppOptions) (w : AppWorld) :
    (((screenshotApp appName opts w).2.2).filter
      (isSpawnOf ("screencapture".toList))).length ≤ 1 := by
  generalize hP : isSpawnOf ("screencapture".toList) = p
  have hosa : ∀ argv : List Str, argv.head? = some ("osascript".toList) →
      p (.spawn argv) = false := hP ▸ screencap_rejects _ (by decide)
  have hmk : ∀ argv : List Str, argv.head? = some ("mkdir".toList) →
      p (.spawn argv) = false := hP ▸ screencap_rejects _ (by decide)
  have hsips : ∀ argv : List Str, argv.head? = some ("sips".toList) →
      p (.spawn argv) = false := hP ▸ screencap_rejects _ (by decide)
  have hmv : ∀ argv : List Str, argv.head? = some ("mv".toList) →
      p (.spawn argv) = false := hP ▸ screencap_rejects _ (by decide)
  have hstat : ∀ q, p (.statFile q) = false := fun q => hP ▸ isSpawnOf_statFile _ q
  have hrd : ∀ q, p (.readFile q) = false := fun q => hP ▸ isSpawnOf_readFile _ q
  have hexi : ∀ q, p (.existsCheck q) = false := fun q => hP ▸ isSpawnOf_existsCheck _ q
  have hcapA : ∀ s wi f, p (.spawn ((captureWithStrategy s wi f).args)) = true :=
    fun s wi f => hP ▸ screencap_accepts_capture s wi f
  have hres0 := resolve_filter_nil appName w.resolveQuery1 w.resolveQuery2 _ hosa
  by_cases hname : appName = []
  · simp [screenshotApp, hname]
  · rcases hres : (resolveActualAppName appName w.resolveQuery1 w.resolveQuery2).1 with _ | a
    · simp [screenshotApp, hname, hres, List.filter_append, hres0,
        listForegroundApps, List.filter, hosa]
    · by_cases hcap : (run w.captureProc).code ≠ 0 ∨ w.fileExists = false
      · simp [screenshotApp, hname, hres, hcap, List.filter_append, hres0,
          getWindowInfo, bringToFront, List.filter, hosa, hmk, hcapA, hexi]
      · have hcmp : ∀ fn : Str, ((compressionPhase fn w).2.2).filter p = [] :=
          fun fn => compressionPhase_filter_nil fn w p hstat hexi hsips hmv
        have hdp : ∀ fn : Str, ((dataPhase fn w).2.2.2).filter p = [] :=
          fun fn => dataPhase_filter_nil fn w p hstat hrd
        by_cases hrdata : opts.returnData <;>
          by_cases hcomp : (opts.compress || w.envCompress) = true <;>
          simp [screenshotApp, hname, hres, hcap, hrdata, hcomp, List.filter_append, hres0,
            getWindowInfo, bringToFront, List.filter, hosa, hmk, hcmp, hdp, hcapA, hexi]

/-- `captureRegion` spawns `screencapture` at most once (no retries). -/
theorem captureRegion_screencap_le_one (x y width height : Int) (opts : RegionOpts)
    (w : RegionWorld) :
    (((captureRegion x y width height opts w).2).filter
      (isSpawnOf ("screencapture".toList))).length ≤ 1 := by
  generalize hP : isSpawnOf ("screencapture".toList) = p
  have hmk : ∀ argv : List Str, argv.head? = some ("mkdir".toList) →
      p (.spawn argv) = false := hP ▸ screencap_rejects _ (by decide)
  have hsips : ∀ argv : List Str, argv.head? = some ("sips".toList) →
      p (.spawn argv) = false := hP ▸ screencap_rejects _ (by decide)
  have hstat : ∀ q, p (.statFile q) = false := fun q => hP ▸ isSpawnOf_statFile _ q
  have hrd : ∀ q, p (.readFile q) = false := fun q => hP ▸ isSpawnOf_readFile _ q
  have hexi : ∀ q, p (.existsCheck q) = false := fun q => hP ▸ isSpawnOf_existsCheck _ q
  have hcapR : ∀ fname : Str,
      p (.spawn (regionCaptureArgs x y width height fname)) = true := by
    intro fname
    rw [← hP, isSpawnOf_eq_decide]
    rfl
  have hemb : ∀ fn lbl : Str,
      ((embedFileContent fn lbl opts.inlineMaxBytes opts.returnData
        w.envInlineMax w.embedFs).2).filter p = [] :=
    fun fn lbl => embedFileContent_filter_nil fn lbl opts.inlineMaxBytes opts.returnData
      w.envInlineMax w.embedFs p hstat hrd
  by_cases hsup : w.supported = false
  · simp [captureRegion, hsup]
  · by_cases hinv : x < 0 ∨ y < 0 ∨ width ≤ 0 ∨ height ≤ 0
    · simp [captureRegion, hsup, hinv]
    · cases hq : w.captureProc with
      | timesOut =>
        simp [captureRegion, hsup, hinv, hq, List.filter_append, List.filter, hmk, hcapR]
      | fails msg =>
        simp [captureRegion, hsup, hinv, hq, List.filter_append, List.filter, hmk, hcapR]
      | completes out err code =>
        by_cases hc : code = 0
        · by_cases hfe : w.fileExists = false <;>
            by_cases hcpr : opts.compress = true <;>
            simp [captureRegion, hsup, hinv, hq, hc, hfe, hcpr, List.filter_append,
              List.filter, hmk, hsips, hcapR, hexi, hemb, regionSipsArgs]
        · simp [captureRegion, hsup, hinv, hq, hc, List.filter_append, List.filter,
            hmk, hcapR]

/-- **C2 (amended).** Capture-by-name: a capture subprocess that exits
nonzero or whose output file is missing yields a failed result that
`runScreenshot` surfaces with `isError = true`, and there is no success
without the file present. Region capture: a nonzero exit yields
`isError = true`, but a missing output file after a zero exit yields the
missing-file warning with `isError = false` (the source sets
`isError: false` there explicitly). Neither path retries: `screencapture`
is spawned at most once per call. -/
theorem c2_amended :
    (∀ (appName : Str) (opts : AppOptions) (w : AppWorld),
        (screenshotApp appName opts w).1.success = true →
        (run w.captureProc).code = 0 ∧ w.fileExists = true)
    ∧ (∀ (appName : Str) (opts : RSOptions) (w : RunWorld),
        w.supported = true →
        (screenshotApp appName ⟨opts.compress, opts.windowStrategy, opts.returnData⟩
          w.app).1.success = false →
        (runScreenshot appName opts w).1.isError = true)
    ∧ (∀ (x y width height : Int) (opts : RegionOpts) (w : RegionWorld) (out err : Str)
        (code : Int),
        w.supported = true →
        ¬(x < 0 ∨ y < 0 ∨ width ≤ 0 ∨ height ≤ 0) →
        w.captureProc = .completes out err code →
        code ≠ 0 →
        (captureRegion x y width height opts w).1.isError = true)
    ∧ (∀ (x y width height : Int) (opts : RegionOpts) (w : RegionWorld) (out err : Str),
        w.supported = true →
        ¬(x < 0 ∨ y < 0 ∨ width ≤ 0 ∨ height ≤ 0) →
        w.captureProc = .completes out err 0 →
        w.fileExists = false →
        (captureRegion x y width height opts w).1.isError = false)
    ∧ (∀ (appName : Str) (opts : AppOptions) (w : AppWorld),
        (((screenshotApp appName opts w).2.2).filter
          (isSpawnOf ("screencapture".toList))).length ≤ 1)
    ∧ (∀ (x y width height : Int) (opts : RegionOpts) (w : RegionWorld),
        (((captureRegion x y width height opts w).2).filter
          (isSpawnOf ("screencapture".toList))).length ≤ 1) := by
  refine ⟨?_, ?_, ?_, ?_,
    fun a o w => screenshotApp_screencap_le_one a o w,
    fun x y wd ht o w => captureRegion_screencap_le_one x y wd ht o w⟩
  · intro appName opts w h
    by_cases hname : appName = []
    · simp [screenshotApp, hname] at h
    · rcases hres : (resolveActualAppName appName w.resolveQuery1 w.resolveQuery2).1 with _ | a
      · simp [screenshotApp, hname, hres] at h
      · by_cases hcap : (run w.captureProc).code ≠ 0 ∨ w.fileExists = false
        · simp [screenshotApp, hname, hres, hcap] at h
        · push_neg at hcap
          exact ⟨hcap.1, by simpa using hcap.2⟩
  · intro appName opts w hsup hfail
    simp [runScreenshot, hsup, hfail]
  · intro x y width height opts w out err code hsup hinv hq hc
    simp [captureRegion, hsup, hinv, hq, hc]
  · intro x y width height opts w out err hsup hinv hq hfe
    simp [captureRegion, hsup, hinv, hq, hfe]

/-- Witness for C2 (amended), at a concrete region capture that exits 1 and
a concrete one that exits 0 with the file missing. -/
theorem c2_amended_witness :
    (captureRegion 0 0 50 50 ⟨false, false, none⟩
      { supported := true, unsupportedMsg := [], captureProc := .completes [] "boom".toList 1,
        fileExists := false, embedFs := ⟨.ok 0, .ok []⟩, envInlineMax := none,
        home := "/h".toList, timestamp := "T".toList }).1.isError = true
    ∧ (captureRegion 0 0 50 50 ⟨false, false, none⟩
      { supported := true, unsupportedMsg := [], captureProc := .completes [] [] 0,
        fileExists := false, embedFs := ⟨.ok 0, .ok []⟩, envInlineMax := none,
        home := "/h".toList, timestamp := "T".toList }).1.isError = false :=
  ⟨c2_amended.2.2.1 0 0 50 50 ⟨false, false, none⟩ _ [] "boom".toList 1
      rfl (by decide) rfl (by decide),
   c2_amended.2.2.2.1 0 0 50 50 ⟨false, false, none⟩ _ [] []
      rfl (by decide) rfl rfl⟩

/-- **C4.** Region-capture validation: whenever `x < 0`, `y < 0`,
`width ≤ 0` or `height ≤ 0`, the call returns an error before any
subprocess is spawned (the effect trace is empty) and the error text names
every field with its value (so in particular the offending one); for all
valid coordinates the validation passes and the `screencapture` subprocess
is reached. -/
theorem c4_region_validation (x y width height : Int) (opts : RegionOpts) (w : RegionWorld)
    (hsup : w.supported = true) :
    ((x < 0 ∨ y < 0 ∨ width ≤ 0 ∨ height ≤ 0) →
      (captureRegion x y width height opts w).1.isError = true
      ∧ (captureRegion x y width height opts w).2 = []
      ∧ (captureRegion x y width height opts w).1.content
          = [.text (regionInvalidMsg x y width height)]
      ∧ (∃ pre post, regionInvalidMsg x y width height
          = pre ++ ("x=".toList ++ intStr x) ++ post)
      ∧ (∃ pre post, regionInvalidMsg x y width height
          = pre ++ ("y=".toList ++ intStr y) ++ post)
      ∧ (∃ pre post, regionInvalidMsg x y width height
          = pre ++ ("width=".toList ++ intStr width) ++ post)
      ∧ (∃ pre post, regionInvalidMsg x y width height
          = pre ++ ("height=".toList ++ intStr height) ++ post))
    ∧ (0 ≤ x → 0 ≤ y → 0 < width → 0 < height →
      Effect.spawn (regionCaptureArgs x y width height
          (regionFilename x y width height w.home w.timestamp))
        ∈ (captureRegion x y width height opts w).2) := by
  constructor
  · intro hinv
    refine ⟨by simp [captureRegion, hsup, hinv], by simp [captureRegion, hsup, hinv],
      by simp [captureRegion, hsup, hinv], ?_, ?_, ?_, ?_⟩
    · exact ⟨"Region capture failed: Invalid coordinates. x and y must be non-negative, width and height must be positive. Got: ".toList,
        ", y=".toList ++ intStr y ++ ", width=".toList ++ intStr width
          ++ ", height=".toList ++ intStr height,
        by simp [regionInvalidMsg, List.append_assoc]⟩
    · exact ⟨"Region capture failed: Invalid coordinates. x and y must be non-negative, width and height must be positive. Got: x=".toList
          ++ intStr x ++ ", ".toList,
        ", width=".toList ++ intStr width ++ ", height=".toList ++ intStr height,
        by simp [regionInvalidMsg, List.append_assoc]⟩
    · exact ⟨"Region capture failed: Invalid coordinates. x and y must be non-negative, width and height must be positive. Got: x=".toList
          ++ intStr x ++ ", y=".toList ++ intStr y ++ ", ".toList,
        ", height=".toList ++ intStr height,
        by simp [regionInvalidMsg, List.append_assoc]⟩
    · exact ⟨"Region capture failed: Invalid coordinates. x and y must be non-negative, width and height must be positive. Got: x=".toList
          ++ intStr x ++ ", y=".toList ++ intStr y ++ ", width=".toList
          ++ intStr width ++ ", ".toList,
        [],
        by simp [regionInvalidMsg, List.append_assoc]⟩
  · intro hx hy hw hh
    have hinv : ¬(x < 0 ∨ y < 0 ∨ width ≤ 0 ∨ height ≤ 0) := by omega
    cases hq : w.captureProc with
    | timesOut => simp [captureRegion, hsup, hinv, hq]
    | fails msg => simp [captureRegion, hsup, hinv, hq]
    | completes out err code =>
      by_cases hc : code = 0
      · by_cases hfe : w.fileExists = false <;>
          simp [captureRegion, hsup, hinv, hq, hc, hfe]
      · simp [captureRegion, hsup, hinv, hq, hc]

/-- Witness for C4 at `(-1, 0, 50, 50)` (rejected before any spawn) and
`(0, 0, 50, 50)` (reaches `screencapture`). -/
theorem c4_region_validation_witness :
    ((-1 : Int) < 0 ∨ (0 : Int) < 0 ∨ (50 : Int) ≤ 0 ∨ (50 : Int) ≤ 0)
    ∧ (captureRegion (-1) 0 50 50 ⟨false, false, none⟩
        { supported := true, unsupportedMsg := [], captureProc := .completes [] [] 0,
          fileExists := true, embedFs := ⟨.ok 10, .ok [1]⟩, envInlineMax := none,
          home := "/h".toList, timestamp := "T".toList }).2 = []
    ∧ Effect.spawn (regionCaptureArgs 0 0 50 50
        (regionFilename 0 0 50 50 "/h".toList "T".toList))
        ∈ (captureRegion 0 0 50 50 ⟨false, false, none⟩
          { supported := true, unsupportedMsg := [], captureProc := .completes [] [] 0,
            fileExists := true, embedFs := ⟨.ok 10, .ok [1]⟩, envInlineMax := none,
            home := "/h".toList, timestamp := "T".toList }).2 :=
  ⟨Or.inl (by decide),
   ((c4_region_validation (-1) 0 50 50 ⟨false, false, none⟩ _ rfl).1
      (Or.inl (by decide))).2.1,
   (c4_region_validation 0 0 50 50 ⟨false, false, none⟩ _ rfl).2
      (by decide) (by decide) (by decide) (by decide)⟩

/-- **C6 counterexample.** When `sips` exits 0 and the temporary file
exists, `compressPng` moves the recompressed bytes over the original even
though they are larger: the original bytes are NOT kept when recompression
succeeds without shrinking the file, refuting the claim. -/
theorem c6_counterexample :
    (compressPng "f.png".toList [0, 0] [1, 1, 1] 0 true).1 = [1, 1, 1]
    ∧ ([1, 1, 1] : List Nat).length > ([0, 0] : List Nat).length
    ∧ (compressPng "f.png".toList [0, 0] [1, 1, 1] 0 true).1 ≠ [0, 0] := by
  decide

/-- **C6 (amended).** If the recompression subprocess fails (nonzero exit
or missing temporary output) the original file bytes are kept; if it
succeeds, the recompressed bytes replace the original even when they are
not smaller, with only the non-fatal notice "Compression did not reduce
size" recorded; and recompression never changes the success of the overall
capture. -/
theorem c6_amended :
    (∀ (path : Str) (orig sipsOut : List Nat) (code : Int) (tmpExists : Bool),
        (code ≠ 0 ∨ tmpExists = false) →
        (compressPng path orig sipsOut code tmpExists).1 = orig)
    ∧ (∀ (appName : Str) (opts : AppOptions) (w : AppWorld),
        (w.sipsCode ≠ 0 ∨ w.sipsTmpExists = false) →
        (screenshotApp appName opts w).1.success = true →
        (screenshotApp appName opts w).2.1 = w.origBytes)
    ∧ (∀ (appName : Str) (opts : AppOptions) (w : AppWorld) (original after : Int),
        (screenshotApp appName opts w).1.success = true →
        (opts.compress || w.envCompress) = true →
        w.statBefore = .ok original → w.statAfter = .ok after → original < after →
        "Compression did not reduce size".toList ∈ (screenshotApp appName opts w).1.stdoutLines)
    ∧ (∀ (appName : Str) (opts : AppOptions) (w : AppWorld),
        (screenshotApp appName opts w).1.success
          = (screenshotApp appName ⟨false, opts.strategy, opts.returnData⟩
              { w with envCompress := false }).1.success) := by
  refine ⟨?_, ?_, ?_, ?_⟩
  · intro path orig sipsOut code tmpExists hfail
    have : ¬(code = 0 ∧ tmpExists = true) := by
      rcases hfail with h | h
      · exact fun hc => h hc.1
      · exact fun hc => by rw [h] at hc; exact Bool.false_ne_true hc.2
    simp [compressPng, this]
  · intro appName opts w hfail hsucc
    have hcp : ¬(w.sipsCode = 0 ∧ w.sipsTmpExists = true) := by
      rcases hfail with h | h
      · exact fun hc => h hc.1
      · exact fun hc => by rw [h] at hc; exact Bool.false_ne_true hc.2
    by_cases hname : appName = []
    · simp [screenshotApp, hname] at hsucc
    · rcases hres : (resolveActualAppName appName w.resolveQuery1 w.resolveQuery2).1 with _ | a
      · simp [screenshotApp, hname, hres] at hsucc
      · by_cases hcap : (run w.captureProc).code ≠ 0 ∨ w.fileExists = false
        · simp [screenshotApp, hname, hres, hcap] at hsucc
        · by_cases hrd : opts.returnData <;>
            by_cases hcomp : (opts.compress || w.envCompress) = true <;>
            cases hsb : w.statBefore <;> cases hsa : w.statAfter <;>
            simp [screenshotApp, compressionPhase, compressPng, hname, hres, hcap,
              hrd, hcomp, hsb, hsa, hcp] <;>
            split_ifs <;> simp
  · intro appName opts w original after hsucc hcomp hsb hsa hlt
    have hna : ¬(after ≤ original) := by omega
    by_cases hname : appName = []
    · simp [screenshotApp, hname] at hsucc
    · rcases hres : (resolveActualAppName appName w.resolveQuery1 w.resolveQuery2).1 with _ | a
      · simp [screenshotApp, hname, hres] at hsucc
      · by_cases hcap : (run w.captureProc).code ≠ 0 ∨ w.fileExists = false
        · simp [screenshotApp, hname, hres, hcap] at hsucc
        · by_cases hrd : opts.returnData <;>
            simp [screenshotApp, compressionPhase, hname, hres, hcap, hrd, hcomp,
              hsb, hsa, hna]
  · intro appName opts w
    by_cases hname : appName = []
    · simp [screenshotApp, hname]
    · rcases hres : (resolveActualAppName appName w.resolveQuery1 w.resolveQuery2).1 with _ | a
      · simp [screenshotApp, hname, hres]
      · by_cases hcap : (run w.captureProc).code ≠ 0 ∨ w.fileExists = false
        · simp [screenshotApp, hname, hres, hcap]
        · by_cases hrd : opts.returnData <;>
            by_cases hcomp : (opts.compress || w.envCompress) = true <;>
            simp [screenshotApp, hname, hres, hcap, hrd, hcomp]

/-- Witness for C6 (amended): a failed `sips` run keeps the original
bytes. -/
theorem c6_amended_witness :
    ((1 : Int) ≠ 0 ∨ false = false)
    ∧ (compressPng "f.png".toList [9, 9] [1] 1 false).1 = [9, 9] :=
  ⟨Or.inl (by decide),
   c6_amended.1 "f.png".toList [9, 9] [1] 1 false (Or.inl (by decide))⟩

/-- **C7.** Application resolution degrades through its passes without
propagating a query failure: pass 2 runs only when pass 1 yields nothing
(one spawned command versus two); when both passes yield nothing the
result is `none`; the diagnostic list query on a zero exit yields the
full enumerated list of foreground app names and on a failure the empty
list; the not-found result is the `App not found` error (never a fatal
failure) carrying, when the diagnostic query succeeded, the running-apps
header and one bullet line for every running foreground app name, and
after a failed query exactly the fixed diagnostic lines with no
running-apps listing. -/
theorem c7_resolver_degradation (input : Str) (q1 q2 : ProcOutcome) :
    (∀ n, passResult (run q1) = some n →
        resolveActualAppName input q1 q2
          = (some n, [.spawn ["osascript".toList, "-e".toList, resolveScript1 input]]))
    ∧ (passResult (run q1) = none →
        (resolveActualAppName input q1 q2).1 = passResult (run q2)
        ∧ ((resolveActualAppName input q1 q2).2).length = 2)
    ∧ (passResult (run q1) = none → passResult (run q2) = none →
        (resolveActualAppName input q1 q2).1 = none)
    ∧ (∀ qlist : ProcOutcome, (run qlist).code ≠ 0 → (listForegroundApps qlist).1 = [])
    ∧ (∀ (appName : Str) (opts : AppOptions) (w : AppWorld),
        appName ≠ [] →
        (resolveActualAppName appName w.resolveQuery1 w.resolveQuery2).1 = none →
        (run w.listQuery).code ≠ 0 →
        (screenshotApp appName opts w).1.error = some ("App not found".toList)
        ∧ (screenshotApp appName opts w).1.stdoutLines
          = ["Looking for app: ".toList ++ appName,
             "Could not find app \x27".toList ++ appName ++ "\x27".toList,
             "Make sure the app is running and try one of these:".toList, []])
    ∧ (∀ out err : Str,
        (listForegroundApps (.completes out err 0)).1
          = ((splitComma out).map strTrim).filter fun n => !n.isEmpty)
    ∧ (∀ (appName : Str) (opts : AppOptions) (w : AppWorld),
        appName ≠ [] →
        (resolveActualAppName appName w.resolveQuery1 w.resolveQuery2).1 = none →
        (screenshotApp appName opts w).1.error = some ("App not found".toList)
        ∧ ((listForegroundApps w.listQuery).1 ≠ [] →
            "Available running apps:".toList ∈ (screenshotApp appName opts w).1.stdoutLines)
        ∧ (∀ n ∈ (listForegroundApps w.listQuery).1,
            ("• ".toList ++ n) ∈ (screenshotApp appName opts w).1.stdoutLines)) := by
  refine ⟨?_, ?_, ?_, ?_, ?_, ?_, ?_⟩
  · intro n h
    simp [resolveActualAppName, h]
  · intro h
    simp [resolveActualAppName, h]
  · intro h1 h2
    simp [resolveActualAppName, h1, h2]
  · intro qlist hc
    simp [listForegroundApps, hc]
  · intro appName opts w hname hres hlist
    have hl : (listForegroundApps w.listQuery).1 = [] := by
      simp [listForegroundApps, hlist]
    constructor
    · simp [screenshotApp, hname, hres]
    · simp [screenshotApp, hname, hres, hl]
  · intro out err
    simp [listForegroundApps, run]
  · intro appName opts w hname hres
    refine ⟨by simp [screenshotApp, hname, hres], ?_, ?_⟩
    · intro hne
      have hlen : (listForegroundApps w.listQuery).1.length ≠ 0 := by
        simpa using hne
      simp [screenshotApp, hname, hres, hlen]
    · intro n hn
      have hlen : (listForegroundApps w.listQuery).1.length ≠ 0 := by
        cases h : (listForegroundApps w.listQuery).1 with
        | nil => rw [h] at hn; simp at hn
        | cons a l => simp [h]
      simp only [screenshotApp]
      rw [if_neg hname, hres]
      simp only [hlen, ne_eq, not_false_iff, if_pos, List.mem_append, List.mem_cons,
        List.mem_map]
      have hex : ∃ a ∈ (listForegroundApps w.listQuery).1,
          "• ".toList ++ a = "• ".toList ++ n := ⟨n, hn, rfl⟩
      tauto

/-- Witness for C7: pass 1 reports `NOT_FOUND`, pass 2 resolves; a failed
list query yields the empty diagnostic list; and on a successful list
query the not-found result carries a bullet line for each running app. -/
theorem c7_resolver_degradation_witness :
    (passResult (run (.completes "NOT_FOUND".toList [] 0)) = none
      ∧ (resolveActualAppName "x".toList (.completes "NOT_FOUND".toList [] 0)
          (.completes "Safari".toList [] 0)).1
        = passResult (run (.completes "Safari".toList [] 0)))
    ∧ ((run ProcOutcome.timesOut).code ≠ 0
      ∧ (listForegroundApps ProcOutcome.timesOut).1 = [])
    ∧ ("• Safari".toList
        ∈ (screenshotApp "Nope".toList ⟨false, none, false⟩
          { envStrategy := none, envCompress := false,
            resolveQuery1 := .completes "NOT_FOUND".toList [] 0,
            resolveQuery2 := .completes "NOT_FOUND".toList [] 0,
            listQuery := .completes "Safari, Mail".toList [] 0,
            windowQuery := .timesOut, captureProc := .timesOut, fileExists := false,
            origBytes := [], statBefore := .ok 0, sipsCode := 0,
            sipsTmpExists := false, sipsBytes := [], statAfter := .ok 0,
            dataStat := .ok 0, dataRead := .ok [],
            home := "/h".toList, timestamp := "T".toList }).1.stdoutLines) :=
  ⟨⟨by decide,
    ((c7_resolver_degradation "x".toList (.completes "NOT_FOUND".toList [] 0)
        (.completes "Safari".toList [] 0)).2.1 (by decide)).1⟩,
   ⟨by decide,
    (c7_resolver_degradation "x".toList (.completes "NOT_FOUND".toList [] 0)
        (.completes "Safari".toList [] 0)).2.2.2.1 ProcOutcome.timesOut (by decide)⟩,
   ((c7_resolver_degradation "x".toList ProcOutcome.timesOut ProcOutcome.timesOut).2.2.2.2.2.2
        "Nope".toList ⟨false, none, false⟩ _ (by decide) (by decide)).2.2
      "Safari".toList (by decide)⟩

/-- With no explicit inline request, `screenshotApp` never reads the
file's bytes. -/
theorem screenshotApp_reads_zero (appName : Str) (opts : AppOptions) (w : AppWorld)
    (hrd : opts.returnData = false) :
    (((screenshotApp appName opts w).2.2).filter isReadEffect).length = 0 := by
  have hres0 := resolve_filter_nil appName w.resolveQuery1 w.resolveQuery2 isReadEffect
    (fun _ _ => rfl)
  have hcmp : ∀ fn : Str, ((compressionPhase fn w).2.2).filter isReadEffect = [] :=
    fun fn => compressionPhase_filter_nil fn w isReadEffect
      (fun _ => rfl) (fun _ => rfl) (fun _ _ => rfl) (fun _ _ => rfl)
  by_cases hname : appName = []
  · simp [screenshotApp, hname]
  · rcases hres : (resolveActualAppName appName w.resolveQuery1 w.resolveQuery2).1 with _ | a
    · simp [screenshotApp, hname, hres, List.filter_append, hres0,
        listForegroundApps, List.filter, isReadEffect]
    · by_cases hcap : (run w.captureProc).code ≠ 0 ∨ w.fileExists = false
      · simp [screenshotApp, hname, hres, hcap, List.filter_append, hres0,
          getWindowInfo, bringToFront, List.filter, isReadEffect]
      · by_cases hcomp : (opts.compress || w.envCompress) = true <;>
          simp [screenshotApp, hname, hres, hcap, hrd, hcomp, List.filter_append, hres0,
            getWindowInfo, bringToFront, List.filter, isReadEffect, hcmp]

/-- With an explicit inline request, a successful `screenshotApp` on a
file within the 1 MiB data-URI limit reads the bytes exactly once. -/
theorem screenshotApp_reads_one (appName : Str) (opts : AppOptions) (w : AppWorld)
    (size : Int) (hrd : opts.returnData = true)
    (hsucc : (screenshotApp appName opts w).1.success = true)
    (hds : w.dataStat = .ok size) (hle : size ≤ 1048576) :
    (((screenshotApp appName opts w).2.2).filter isReadEffect).length = 1 := by
  have hres0 := resolve_filter_nil appName w.resolveQuery1 w.resolveQuery2 isReadEffect
    (fun _ _ => rfl)
  have hcmp : ∀ fn : Str, ((compressionPhase fn w).2.2).filter isReadEffect = [] :=
    fun fn => compressionPhase_filter_nil fn w isReadEffect
      (fun _ => rfl) (fun _ => rfl) (fun _ _ => rfl) (fun _ _ => rfl)
  have hng : ¬(1048576 < size) := by omega
  have hdp : ∀ fn : Str, (((dataPhase fn w).2.2.2).filter isReadEffect).length = 1 := by
    intro fn
    unfold dataPhase
    rw [hds]
    cases w.dataRead <;> simp [hng, List.filter, isReadEffect]
  by_cases hname : appName = []
  · simp [screenshotApp, hname] at hsucc
  · rcases hres : (resolveActualAppName appName w.resolveQuery1 w.resolveQuery2).1 with _ | a
    · simp [screenshotApp, hname, hres] at hsucc
    · by_cases hcap : (run w.captureProc).code ≠ 0 ∨ w.fileExists = false
      · simp [screenshotApp, hname, hres, hcap] at hsucc
      · by_cases hcomp : (opts.compress || w.envCompress) = true <;>
          simp [screenshotApp, hname, hres, hcap, hrd, hcomp, List.filter_append, hres0,
            getWindowInfo, bringToFront, List.filter, isReadEffect, hcmp, hdp]

/-- `embedFileContent` reads the bytes exactly once when it embeds and not
at all otherwise, and always stats exactly once. -/
theorem embedFileContent_read_stat_count (path label : Str) (imb : Option Int)
    (force : Bool) (env : Option Int) (fs : FileEnv) (size : Int)
    (h : fs.statSize = .ok size) :
    (((embedFileContent path label imb force env fs).2).filter isReadEffect).length
      = (if shouldEmbed size (resolveInlineMaxBytes imb env) force then 1 else 0)
    ∧ (((embedFileContent path label imb force env fs).2).filter isStatEffect).length = 1 := by
  unfold embedFileContent
  rw [h]
  by_cases hemb : shouldEmbed size (resolveInlineMaxBytes imb env) force = true
  · cases fs.readBytes <;>
      simp [hemb, List.filter, isReadEffect, isStatEffect]
  · simp at hemb
    simp [hemb, List.filter, isReadEffect, isStatEffect]

/-- On a successful capture with the file still present, the reads of
`runScreenshot` are exactly the capture layer's reads plus the embedding
layer's reads. -/
theorem runScreenshot_reads_split (appName : Str) (opts : RSOptions) (w : RunWorld)
    (hsup : w.supported = true)
    (hsucc : (screenshotApp appName ⟨opts.compress, opts.windowStrategy, opts.returnData⟩
      w.app).1.success = true)
    (hex : w.pathExistsAtEmbed = true) :
    ∃ p, (screenshotApp appName ⟨opts.compress, opts.windowStrategy, opts.returnData⟩
        w.app).1.path = some p
    ∧ (((runScreenshot appName opts w).2).filter isReadEffect).length
      = (((screenshotApp appName ⟨opts.compress, opts.windowStrategy, opts.returnData⟩
            w.app).2.2).filter isReadEffect).length
        + (((embedFileContent p ("Screenshot successfully taken and saved to: ".toList)
            opts.inlineMaxBytes opts.returnData w.envInlineMax w.embedFs).2).filter
            isReadEffect).length := by
  by_cases hname : appName = []
  · simp [screenshotApp, hname] at hsucc
  · rcases hres : (resolveActualAppName appName w.app.resolveQuery1 w.app.resolveQuery2).1
      with _ | a
    · simp [screenshotApp, hname, hres] at hsucc
    · by_cases hcap : (run w.app.captureProc).code ≠ 0 ∨ w.app.fileExists = false
      · simp [screenshotApp, hname, hres, hcap] at hsucc
      · refine ⟨buildFilename (w.app.home ++ "/Desktop/Screenshots".toList) a w.app.timestamp,
          ?_, ?_⟩
        · by_cases hrd : opts.returnData <;>
            simp [screenshotApp, hname, hres, hcap, hrd]
        · by_cases hrd : opts.returnData <;>
            simp [runScreenshot, screenshotApp, hname, hres, hcap, hrd, hsup, hex,
              List.filter_append, List.filter, isReadEffect] <;>
            omega

/-- **C8 counterexample.** With an explicit inline request and a small
file, the file's bytes are read twice: once by `screenshotApp` for its
data URI and once more by `embedFileContent` when embedding, refuting the
claim that the bytes are never read twice. -/
theorem c8_counterexample :
    (((runScreenshot "Saf".toList ⟨false, none, true, none⟩
      { supported := true, unsupportedMsg := [],
        app :=
          { envStrategy := none, envCompress := false,
            resolveQuery1 := .completes "Safari".toList [] 0,
            resolveQuery2 := .timesOut, listQuery := .timesOut,
            windowQuery := .completes "WINDOW_ID:5".toList [] 0,
            captureProc := .completes [] [] 0, fileExists := true,
            origBytes := [1, 2, 3], statBefore := .ok 3, sipsCode := 0,
            sipsTmpExists := true, sipsBytes := [7], statAfter := .ok 1,
            dataStat := .ok 100, dataRead := .ok [1, 2, 3],
            home := "/h".toList, timestamp := "T".toList },
        pathExistsAtEmbed := true, embedFs := ⟨.ok 100, .ok [1, 2, 3]⟩,
        envInlineMax := none }).2).filter isReadEffect).length = 2 := by
  decide

/-- **C8 (amended).** The embedding layer stats exactly once and reads
exactly once iff it embeds; without an explicit inline request the capture
layer performs no reads, so an embedded result is read exactly once and a
non-embedded one not at all; but an explicit inline request makes the
capture layer read the bytes once more for a data URI the embedding layer
discards, so a small file's bytes are read twice in total. -/
theorem c8_amended :
    (∀ (path label : Str) (imb : Option Int) (force : Bool) (env : Option Int)
        (fs : FileEnv) (size : Int), fs.statSize = .ok size →
      (((embedFileContent path label imb force env fs).2).filter isReadEffect).length
        = (if shouldEmbed size (resolveInlineMaxBytes imb env) force then 1 else 0)
      ∧ (((embedFileContent path label imb force env fs).2).filter isStatEffect).length = 1)
    ∧ (∀ (appName : Str) (opts : AppOptions) (w : AppWorld), opts.returnData = false →
      (((screenshotApp appName opts w).2.2).filter isReadEffect).length = 0)
    ∧ (∀ (appName : Str) (opts : RSOptions) (w : RunWorld) (size : Int),
      w.supported = true → opts.returnData = false →
      (screenshotApp appName ⟨opts.compress, opts.windowStrategy, opts.returnData⟩
        w.app).1.success = true →
      w.pathExistsAtEmbed = true →
      w.embedFs.statSize = .ok size →
      (((runScreenshot appName opts w).2).filter isReadEffect).length
        = (if shouldEmbed size (resolveInlineMaxBytes opts.inlineMaxBytes w.envInlineMax)
            opts.returnData then 1 else 0))
    ∧ (∀ (appName : Str) (opts : RSOptions) (w : RunWorld) (size sz : Int),
      w.supported = true → opts.returnData = true →
      (screenshotApp appName ⟨opts.compress, opts.windowStrategy, opts.returnData⟩
        w.app).1.success = true →
      w.pathExistsAtEmbed = true →
      w.app.dataStat = .ok size → size ≤ 1048576 →
      w.embedFs.statSize = .ok sz →
      shouldEmbed sz (resolveInlineMaxBytes opts.inlineMaxBytes w.envInlineMax) true = true →
      (((runScreenshot appName opts w).2).filter isReadEffect).length = 2) := by
  refine ⟨?_, ?_, ?_, ?_⟩
  · intro path label imb force env fs size h
    exact embedFileContent_read_stat_count path label imb force env fs size h
  · intro appName opts w h
    exact screenshotApp_reads_zero appName opts w h
  · intro appName opts w size hsup hrd hsucc hex hstat
    obtain ⟨p, hp, hsplit⟩ := runScreenshot_reads_split appName opts w hsup hsucc hex
    rw [hsplit, screenshotApp_reads_zero _ _ _ hrd,
      (embedFileContent_read_stat_count p _ opts.inlineMaxBytes opts.returnData
        w.envInlineMax w.embedFs size hstat).1]
    simp
  · intro appName opts w size sz hsup hrd hsucc hex hds hle hstat hemb
    obtain ⟨p, hp, hsplit⟩ := runScreenshot_reads_split appName opts w hsup hsucc hex
    rw [hsplit, screenshotApp_reads_one _ _ _ size hrd hsucc hds hle,
      (embedFileContent_read_stat_count p _ opts.inlineMaxBytes opts.returnData
        w.envInlineMax w.embedFs sz hstat).1]
    rw [hrd, hemb]
    simp

/-- Witness for C8 (amended): without an inline request an embedded result
is read exactly once. -/
theorem c8_amended_witness :
    (((runScreenshot "Saf".toList ⟨false, none, false, none⟩
      { supported := true, unsupportedMsg := [],
        app :=
          { envStrategy := none, envCompress := false,
            resolveQuery1 := .completes "Safari".toList [] 0,
            resolveQuery2 := .timesOut, listQuery := .timesOut,
            windowQuery := .completes "WINDOW_ID:5".toList [] 0,
            captureProc := .completes [] [] 0, fileExists := true,
            origBytes := [1, 2, 3], statBefore := .ok 3, sipsCode := 0,
            sipsTmpExists := true, sipsBytes := [7], statAfter := .ok 1,
            dataStat := .ok 100, dataRead := .ok [1, 2, 3],
            home := "/h".toList, timestamp := "T".toList },
        pathExistsAtEmbed := true, embedFs := ⟨.ok 100, .ok [1, 2, 3]⟩,
        envInlineMax := none }).2).filter isReadEffect).length
      = (if shouldEmbed 100 (resolveInlineMaxBytes none none) false then 1 else 0) :=
  c8_amended.2.2.1 "Saf".toList ⟨false, none, false, none⟩ _ 100
    rfl rfl (by decide) rfl rfl

/-- **C9.** Shell-metacharacter safety of application resolution: every
command the resolver executes is a direct `osascript -e <script>` argument
vector (never a shell), where the input appears only as data inside the
script text built by `resolveScript1`/`resolveScript2`; the number of
commands executed does not depend on the input's characters; and for fixed
query outcomes the resolution result is the same for every input, so a
name containing `;`, `$()`, backticks, `&` or `|` fails exactly as any
other not-found name does. -/
theorem c9_injection_safety (input : Str) (q1 q2 : ProcOutcome) :
    (∀ e ∈ (resolveActualAppName input q1 q2).2,
        e = .spawn ["osascript".toList, "-e".toList, resolveScript1 input]
        ∨ e = .spawn ["osascript".toList, "-e".toList, resolveScript2 input])
    ∧ (∀ input' : Str,
        ((resolveActualAppName input q1 q2).2).length
          = ((resolveActualAppName input' q1 q2).2).length)
    ∧ (∀ input' : Str,
        (resolveActualAppName input q1 q2).1 = (resolveActualAppName input' q1 q2).1) := by
  refine ⟨?_, ?_, ?_⟩
  · intro e he
    unfold resolveActualAppName at he
    cases hp : passResult (run q1) <;> rw [hp] at he <;> simp at he <;> tauto
  · intro input'
    unfold resolveActualAppName
    cases hp : passResult (run q1) <;> simp
  · intro input'
    unfold resolveActualAppName
    cases hp : passResult (run q1) <;> simp

/-- Witness for C9: a name full of shell metacharacters spawns the same
number of commands and resolves to the same (not-found) result as a plain
unknown name, against `NOT_FOUND` query outcomes. -/
theorem c9_injection_safety_witness :
    (((resolveActualAppName "App;$(whoami) \x60id\x60 &|".toList
        (.completes "NOT_FOUND".toList [] 0) (.completes "NOT_FOUND".toList [] 0)).2).length
      = ((resolveActualAppName "Nope".toList
        (.completes "NOT_FOUND".toList [] 0) (.completes "NOT_FOUND".toList [] 0)).2).length)
    ∧ ((resolveActualAppName "App;$(whoami) \x60id\x60 &|".toList
        (.completes "NOT_FOUND".toList [] 0) (.completes "NOT_FOUND".toList [] 0)).1
      = (resolveActualAppName "Nope".toList
        (.completes "NOT_FOUND".toList [] 0) (.completes "NOT_FOUND".toList [] 0)).1) :=
  ⟨(c9_injection_safety "App;$(whoami) \x60id\x60 &|".toList
      (.completes "NOT_FOUND".toList [] 0) (.completes "NOT_FOUND".toList [] 0)).2.1
      "Nope".toList,
   (c9_injection_safety "App;$(whoami) \x60id\x60 &|".toList
      (.completes "NOT_FOUND".toList [] 0) (.completes "NOT_FOUND".toList [] 0)).2.2
      "Nope".toList⟩

/-- **C10.** The list-applications operation returns the running app names
sorted by the locale comparator (for any comparator that is transitive and
total in its nonpositive part) as a pretty-printed JSON array — a
permutation of the parsed names, not the OS enumeration order — and when
the OS query succeeds but yields no names it returns the literal text
`"[]"`. -/
theorem c10_list_apps_sorted_json (supported : Bool) (msg out err : Str)
    (lc : Str → Str → Int) (hsup : supported = true)
    (htrans : ∀ a b c, lc a b ≤ 0 → lc b c ≤ 0 → lc a c ≤ 0)
    (htotal : ∀ a b, lc a b ≤ 0 ∨ lc b a ≤ 0) :
    (strTrim out ≠ [] →
      ∃ sorted : List Str,
        (listRunningApps supported msg (.completes out err 0) lc).1
          = { content := [.text (jsonStringifyArray sorted)], isError := false }
        ∧ sorted.Perm
            (((splitComma (strTrim out)).map strTrim).filter fun n => decide (0 < n.length))
        ∧ sorted.Sorted (fun a b => lc a b ≤ 0))
    ∧ (strTrim out = [] →
      (listRunningApps supported msg (.completes out err 0) lc).1
        = { content := [.text "[]".toList], isError := false }) := by
  constructor
  · intro hne
    haveI : IsTotal Str (fun a b => lc a b ≤ 0) := ⟨htotal⟩
    haveI : IsTrans Str (fun a b => lc a b ≤ 0) := ⟨htrans⟩
    refine ⟨List.insertionSort (fun a b => lc a b ≤ 0)
        (((splitComma (strTrim out)).map strTrim).filter fun n => decide (0 < n.length)),
      ?_, List.perm_insertionSort _ _, List.sorted_insertionSort _ _⟩
    simp [listRunningApps, hsup, hne]
  · intro hempty
    simp [listRunningApps, hsup, hempty]

/-- Witness for C10: the all-equal comparator on output `"b, a"`, and the
empty-output case. -/
theorem c10_list_apps_sorted_json_witness :
    ((strTrim "b, a".toList ≠ [] →
      ∃ sorted : List Str,
        (listRunningApps true [] (.completes "b, a".toList [] 0) (fun _ _ => 0)).1
          = { content := [.text (jsonStringifyArray sorted)], isError := false }
        ∧ sorted.Perm
            (((splitComma (strTrim "b, a".toList)).map strTrim).filter
              fun n => decide (0 < n.length))
        ∧ sorted.Sorted (fun a b => (fun (_ _ : Str) => (0 : Int)) a b ≤ 0)))
    ∧ (listRunningApps true [] (.completes "  ".toList [] 0) (fun _ _ => 0)).1
      = { content := [.text "[]".toList], isError := false } :=
  ⟨(c10_list_apps_sorted_json true [] "b, a".toList [] (fun _ _ => 0) rfl
      (fun _ _ _ _ _ => le_refl 0) (fun _ _ => Or.inl (le_refl 0))).1,
   (c10_list_apps_sorted_json true [] "  ".toList [] (fun _ _ => 0) rfl
      (fun _ _ _ _ _ => le_refl 0) (fun _ _ => Or.inl (le_refl 0))).2 (by decide)⟩
